import Mathlib

/-!
Shallow embedding of `src/spotify_stubs.c` (ocaml-spotify binding layer):
handle wrappers around native pointers, release/finalize discipline,
error signalling (`spotify:null`, `spotify:error`), callback trampolines,
and the borrowed-pointer wrapping accessors.

Native pointers are modelled as `Nat`, with `0` the NULL sentinel.  The
wrapped native library is opaque: where a stub calls into it, the native
return value (a pointer or an `sp_error` code) is a parameter of the
embedded function, and the calls the stub makes into the library are
recorded in explicit trace/effect structures.
-/

namespace Spotify

/-- A native pointer (address); `0` is NULL. -/
abbrev Ptr := Nat

/-- The two failure kinds raised by the stubs: the registered
`spotify:null` exception, and the `spotify:error` exception carrying the
originating native function name and the `sp_error` code (see `fail`). -/
inductive Failure where
  | nullHandle : Failure
  | nativeError : String → Nat → Failure
deriving DecidableEq, Repr

/-- `fail(func, error)`: raises `spotify:error` with the function name and
the numeric error code (`caml_raise_with_args` of two arguments). -/
def fail (func : String) (error : Nat) : Failure :=
  Failure.nativeError func error

/-- `get_##name` from `DEFINE_OPS` (and `get_session`): reads the stored
pointer and raises `spotify:null` when it is NULL, otherwise returns it. -/
def get_session (p : Ptr) : Except Failure Ptr :=
  if p = 0 then Except.error Failure.nullHandle else Except.ok p

/-- `get_track` (instance of `get_##name` from `DEFINE_OPS`). -/
def get_track (p : Ptr) : Except Failure Ptr :=
  if p = 0 then Except.error Failure.nullHandle else Except.ok p

/-- `get_link` (instance of `get_##name` from `DEFINE_OPS`). -/
def get_link (p : Ptr) : Except Failure Ptr :=
  if p = 0 then Except.error Failure.nullHandle else Except.ok p

/-- `get_album` (instance of `get_##name` from `DEFINE_OPS`). -/
def get_album (p : Ptr) : Except Failure Ptr :=
  if p = 0 then Except.error Failure.nullHandle else Except.ok p

/-- `get_search` (instance of `get_##name` from `DEFINE_OPS_WITH_CALLBACK`,
reading the `struct search *` record pointer). -/
def get_search (p : Ptr) : Except Failure Ptr :=
  if p = 0 then Except.error Failure.nullHandle else Except.ok p

/-- `get_albumbrowse` (instance of `get_##name` from
`DEFINE_OPS_WITH_CALLBACK`, reading the `struct albumbrowse *` record). -/
def get_albumbrowse (p : Ptr) : Except Failure Ptr :=
  if p = 0 then Except.error Failure.nullHandle else Except.ok p

/-! ## Custom-value identity: `spotify_compare` / `spotify_hash`

A wrapper is a custom block; `Data_custom_val` is the address of its data
area (where the native pointer is stored).  `addr` models that address,
`ptr` the stored native pointer.  Two distinct live wrappers have distinct
data-area addresses. -/

/-- A handle wrapper: data-area address plus the wrapped native pointer. -/
structure Wrapper where
  addr : Ptr
  ptr : Ptr
deriving DecidableEq, Repr

/-- Truncation of an integer to a 32-bit signed `int`, as the C cast
`(int)` performs on the pointer difference. -/
def toInt32 (n : Int) : Int :=
  (n + 2 ^ 31) % 2 ^ 32 - 2 ^ 31

/-- `spotify_compare(a, b) = (int)(Data_custom_val(a) - Data_custom_val(b))`:
the byte difference of the two data-area addresses, cast to `int`. -/
def spotify_compare (a b : Wrapper) : Int :=
  toInt32 ((a.addr : Int) - (b.addr : Int))

/-- `spotify_hash(x) = (long)Data_custom_val(x)`: the data-area address
(`long` is 64-bit here, so no truncation). -/
def spotify_hash (x : Wrapper) : Int :=
  (x.addr : Int)

/-- `ocaml_spotify_is_null(x) = Val_bool(Data_custom_val(x) == NULL)`:
tests the data-area address itself, not the stored pointer. -/
def ocaml_spotify_is_null (x : Wrapper) : Bool :=
  x.addr = 0

/-! ## Release / finalize discipline

Effects a release performs on the native library and the runtime:
`sp_*_release` calls (native reference-count decrements), generational
global roots removed, and `free`s of malloc'd records. -/

/-- Counts of the side effects one release/finalize call performs. -/
structure ReleaseEffects where
  decrements : Nat
  rootsRemoved : Nat
  frees : Nat
deriving DecidableEq, Repr

/-- No side effects at all. -/
def noEffects : ReleaseEffects := ⟨0, 0, 0⟩

/-- `name##_finalize` from `DEFINE_OPS` (e.g. `track_finalize`): if the
stored pointer is non-NULL, call `sp_##name##_release` on it; otherwise do
nothing. -/
def track_finalize (p : Ptr) : ReleaseEffects :=
  if p ≠ 0 then ⟨1, 0, 0⟩ else noEffects

/-- `ocaml_spotify_track_release`: run `track_finalize` on the stored
pointer, then store NULL.  Returns the new stored pointer and the effects. -/
def ocaml_spotify_track_release (p : Ptr) : Ptr × ReleaseEffects :=
  (0, track_finalize p)

/-- `session_finalize`: if the stored session pointer is non-NULL, remove
the two generational global roots of the userdata record, `free` the
record, and call `sp_session_release`; otherwise do nothing. -/
def session_finalize (p : Ptr) : ReleaseEffects :=
  if p ≠ 0 then ⟨1, 2, 1⟩ else noEffects

/-- `ocaml_spotify_session_release`: `session_finalize`, then store NULL. -/
def ocaml_spotify_session_release (p : Ptr) : Ptr × ReleaseEffects :=
  (0, session_finalize p)

/-- `name##_finalize` from `DEFINE_OPS_WITH_CALLBACK` (e.g.
`search_finalize`): if the stored record pointer is non-NULL, remove the
record's two generational global roots, call `sp_##name##_release` on the
record's native pointer, and `free` the record; otherwise do nothing. -/
def search_finalize (r : Ptr) : ReleaseEffects :=
  if r ≠ 0 then ⟨1, 2, 1⟩ else noEffects

/-- `ocaml_spotify_search_release`: `search_finalize`, then store NULL. -/
def ocaml_spotify_search_release (r : Ptr) : Ptr × ReleaseEffects :=
  (0, search_finalize r)

/-- `albumbrowse_finalize` (same `DEFINE_OPS_WITH_CALLBACK` expansion). -/
def albumbrowse_finalize (r : Ptr) : ReleaseEffects :=
  if r ≠ 0 then ⟨1, 2, 1⟩ else noEffects

/-- `ocaml_spotify_albumbrowse_release`: finalize, then store NULL. -/
def ocaml_spotify_albumbrowse_release (r : Ptr) : Ptr × ReleaseEffects :=
  (0, albumbrowse_finalize r)

/-! ## Session creation (`ocaml_spotify_session_create`)

The stub allocates a `struct userdata`, stores the (still-NULL) session
wrapper and the callbacks object in it, registers both fields as
generational global roots, then calls `sp_session_create`.  On a nonzero
error code it does `free(data); fail("sp_session_create", error);` —
without removing the two roots it just registered. -/

/-- Allocation/registration state left behind by a `session_create`
attempt. -/
structure SessionCreateState where
  recordAllocated : Bool
  sessionRootRegistered : Bool
  callbacksRootRegistered : Bool
deriving DecidableEq, Repr

/-- `ocaml_spotify_session_create`, with the native `sp_session_create`
return code as parameter.  Returns the raised/normal outcome together with
the final allocation/registration state. -/
def ocaml_spotify_session_create (err : Nat) :
    Except Failure Unit × SessionCreateState :=
  if err ≠ 0 then
    (Except.error (fail "sp_session_create" err),
     { recordAllocated := false
       sessionRootRegistered := true
       callbacksRootRegistered := true })
  else
    (Except.ok (),
     { recordAllocated := true
       sessionRootRegistered := true
       callbacksRootRegistered := true })

/-! ## Synchronous error-checked native calls (`fail` sites) -/

/-- `ocaml_spotify_session_relogin`: `get_session`, call
`sp_session_relogin` (its return code is the parameter `err`), and
`fail("sp_session_relogin", err)` when the code is nonzero. -/
def ocaml_spotify_session_relogin (s : Ptr) (err : Nat) :
    Except Failure Unit :=
  match get_session s with
  | Except.error e => Except.error e
  | Except.ok _ =>
    if err ≠ 0 then Except.error (fail "sp_session_relogin" err)
    else Except.ok ()

/-- `ocaml_spotify_session_player_load`: `get_session`, `get_track`, call
`sp_session_player_load` (return code `err`), and
`fail("sp_session_player_load", err)` when nonzero. -/
def ocaml_spotify_session_player_load (s t : Ptr) (err : Nat) :
    Except Failure Unit :=
  match get_session s with
  | Except.error e => Except.error e
  | Except.ok _ =>
    match get_track t with
    | Except.error e => Except.error e
    | Except.ok _ =>
      if err ≠ 0 then Except.error (fail "sp_session_player_load" err)
      else Except.ok ()

/-- `ocaml_spotify_session_player_prefetch`: same shape with
`sp_session_player_prefetch`. -/
def ocaml_spotify_session_player_prefetch (s t : Ptr) (err : Nat) :
    Except Failure Unit :=
  match get_session s with
  | Except.error e => Except.error e
  | Except.ok _ =>
    match get_track t with
    | Except.error e => Except.error e
    | Except.ok _ =>
      if err ≠ 0 then Except.error (fail "sp_session_player_prefetch" err)
      else Except.ok ()

/-! ## Callback trampolines (`ENTER_CALLBACK` / `LEAVE_CALLBACK`)

`ENTER_CALLBACK` calls `caml_c_thread_register()` (nonzero exactly when
the thread was not yet registered) and, when it registered the thread,
`caml_acquire_runtime_system()`.  `LEAVE_CALLBACK` undoes both, but only
as straight-line code after the `caml_callback*` call: a raise from the
managed callback unwinds past it. -/

/-- Registration state of the native thread running a trampoline. -/
structure ThreadState where
  registered : Bool
  runtimeHeld : Bool
deriving DecidableEq, Repr

/-- One trampoline invocation (e.g. `logged_in`): `ENTER_CALLBACK`, the
`caml_callback*` call (`raises` tells whether the managed callback
raises), then `LEAVE_CALLBACK` — which is reached only on the
normal-return path, since a raise propagates out of `caml_callback*`
directly. -/
def run_trampoline (entry : ThreadState) (raises : Bool) : ThreadState :=
  let newly := !entry.registered
  let afterEnter : ThreadState :=
    { registered := true, runtimeHeld := entry.runtimeHeld || newly }
  if raises then afterEnter
  else if newly then { registered := false, runtimeHeld := false }
  else afterEnter

/-! ## Search / albumbrowse registration-record lifetime

`ocaml_spotify_search_create` mallocs a `struct search`, hands it to
`sp_search_create` as the completion userdata, and registers its
`callback` and `search` fields as generational global roots.
`search_finalize` (run by `ocaml_spotify_search_release`) removes those
roots, releases the native search and `free`s the record.
`search_complete` casts the userdata back to `struct search *` and reads
its fields. -/

/-- State of a search handle's registration record. -/
structure SearchLifecycle where
  recordAllocated : Bool
  rootsRegistered : Bool
  wrapperStored : Ptr
deriving DecidableEq, Repr

/-- State right after `ocaml_spotify_search_create`: record malloc'd (at
some non-NULL address, here `1`), both roots registered, wrapper storing
the record pointer. -/
def search_create_lifecycle : SearchLifecycle :=
  { recordAllocated := true, rootsRegistered := true, wrapperStored := 1 }

/-- Effect of `ocaml_spotify_search_release` on the record:
`search_finalize` removes the roots and `free`s the record when the stored
pointer is non-NULL, then the wrapper stores NULL. -/
def search_release_lifecycle (s : SearchLifecycle) : SearchLifecycle :=
  if s.wrapperStored ≠ 0 then
    { recordAllocated := false, rootsRegistered := false, wrapperStored := 0 }
  else s

/-- Whether `search_complete`, fired with the record as userdata, reads
freed memory: it dereferences `search->callback` and `search->search`, so
it touches freed memory exactly when the record is no longer allocated. -/
def search_complete_reads_freed (s : SearchLifecycle) : Bool :=
  !s.recordAllocated

/-! ## Albumbrowse creation (`ocaml_spotify_albumbrowse_create`)

The stub calls `sp_albumbrowse_create(get_session(session),
Album_val(album), albumbrowse_complete, albumbrowse)`: the session goes
through `get_session`, but the album pointer is read raw with
`Album_val`, with no NULL check. -/

/-- What `ocaml_spotify_albumbrowse_create` handed to the native library. -/
structure BrowseCreateTrace where
  nativeCalled : Bool
  nativeAlbumArg : Ptr
deriving DecidableEq, Repr

/-- `ocaml_spotify_albumbrowse_create` on the stored session pointer and
the stored album pointer: `get_session` may raise `spotify:null`; the
album pointer is passed through unchecked. -/
def ocaml_spotify_albumbrowse_create (s a : Ptr) :
    Except Failure BrowseCreateTrace :=
  match get_session s with
  | Except.error e => Except.error e
  | Except.ok _ => Except.ok { nativeCalled := true, nativeAlbumArg := a }

/-! ## Borrowed-pointer wrapping accessors

Each of these stubs calls a native accessor that returns a *borrowed*
pointer `p` (a parameter here, the library being opaque), then does
`if (p) sp_X_add_ref(p); return alloc_X(p);`.  `WrapTrace` records the
number of explicit add-reference calls performed and the pointer stored
in the new wrapper. -/

/-- Add-reference calls performed and pointer wrapped by an accessor. -/
structure WrapTrace where
  addRefs : Nat
  wrapped : Ptr
deriving DecidableEq, Repr

/-- The ownership invariant of a freshly wrapped pointer: exactly one
owned reference increment on a non-null object, or the null sentinel with
no increment — never both. -/
def ownershipOK (t : WrapTrace) : Prop :=
  (t.wrapped ≠ 0 ∧ t.addRefs = 1) ∨ (t.wrapped = 0 ∧ t.addRefs = 0)

/-- `ocaml_spotify_session_user`: `sp_session_user` returns `user`;
`if (user) sp_user_add_ref(user); return alloc_user(user);`. -/
def ocaml_spotify_session_user (s user : Ptr) : Except Failure WrapTrace :=
  match get_session s with
  | Except.error e => Except.error e
  | Except.ok _ => Except.ok ⟨if user ≠ 0 then 1 else 0, user⟩

/-- `ocaml_spotify_session_friend`: same shape on `sp_session_friend`. -/
def ocaml_spotify_session_friend (s user : Ptr) : Except Failure WrapTrace :=
  match get_session s with
  | Except.error e => Except.error e
  | Except.ok _ => Except.ok ⟨if user ≠ 0 then 1 else 0, user⟩

/-- `ocaml_spotify_session_playlistcontainer`: same shape on
`sp_session_playlistcontainer` / `sp_playlistcontainer_add_ref`. -/
def ocaml_spotify_session_playlistcontainer (s plc : Ptr) :
    Except Failure WrapTrace :=
  match get_session s with
  | Except.error e => Except.error e
  | Except.ok _ => Except.ok ⟨if plc ≠ 0 then 1 else 0, plc⟩

/-- `ocaml_spotify_link_as_track`: `sp_link_as_track` returns a borrowed
track; `if (track) sp_track_add_ref(track); return alloc_track(track);`. -/
def ocaml_spotify_link_as_track (l track : Ptr) : Except Failure WrapTrace :=
  match get_link l with
  | Except.error e => Except.error e
  | Except.ok _ => Except.ok ⟨if track ≠ 0 then 1 else 0, track⟩

/-- `ocaml_spotify_link_as_album`: same shape. -/
def ocaml_spotify_link_as_album (l album : Ptr) : Except Failure WrapTrace :=
  match get_link l with
  | Except.error e => Except.error e
  | Except.ok _ => Except.ok ⟨if album ≠ 0 then 1 else 0, album⟩

/-- `ocaml_spotify_link_as_artist`: same shape. -/
def ocaml_spotify_link_as_artist (l artist : Ptr) : Except Failure WrapTrace :=
  match get_link l with
  | Except.error e => Except.error e
  | Except.ok _ => Except.ok ⟨if artist ≠ 0 then 1 else 0, artist⟩

/-- `ocaml_spotify_link_as_user`: same shape. -/
def ocaml_spotify_link_as_user (l user : Ptr) : Except Failure WrapTrace :=
  match get_link l with
  | Except.error e => Except.error e
  | Except.ok _ => Except.ok ⟨if user ≠ 0 then 1 else 0, user⟩

/-- `ocaml_spotify_track_artist`: `sp_track_artist` borrows; add-ref then
wrap. -/
def ocaml_spotify_track_artist (t artist : Ptr) : Except Failure WrapTrace :=
  match get_track t with
  | Except.error e => Except.error e
  | Except.ok _ => Except.ok ⟨if artist ≠ 0 then 1 else 0, artist⟩

/-- `ocaml_spotify_track_album`: same shape. -/
def ocaml_spotify_track_album (t album : Ptr) : Except Failure WrapTrace :=
  match get_track t with
  | Except.error e => Except.error e
  | Except.ok _ => Except.ok ⟨if album ≠ 0 then 1 else 0, album⟩

/-- `ocaml_spotify_album_artist`: same shape on `sp_album_artist`. -/
def ocaml_spotify_album_artist (a artist : Ptr) : Except Failure WrapTrace :=
  match get_album a with
  | Except.error e => Except.error e
  | Except.ok _ => Except.ok ⟨if artist ≠ 0 then 1 else 0, artist⟩

/-- `ocaml_spotify_search_track`: `get_search`, then `sp_search_track`
borrows; add-ref then wrap. -/
def ocaml_spotify_search_track (s track : Ptr) : Except Failure WrapTrace :=
  match get_search s with
  | Except.error e => Except.error e
  | Except.ok _ => Except.ok ⟨if track ≠ 0 then 1 else 0, track⟩

/-- `ocaml_spotify_search_album`: same shape. -/
def ocaml_spotify_search_album (s album : Ptr) : Except Failure WrapTrace :=
  match get_search s with
  | Except.error e => Except.error e
  | Except.ok _ => Except.ok ⟨if album ≠ 0 then 1 else 0, album⟩

/-- `ocaml_spotify_search_artist`: same shape. -/
def ocaml_spotify_search_artist (s artist : Ptr) : Except Failure WrapTrace :=
  match get_search s with
  | Except.error e => Except.error e
  | Except.ok _ => Except.ok ⟨if artist ≠ 0 then 1 else 0, artist⟩

/-- `ocaml_spotify_albumbrowse_album`: same shape via `get_albumbrowse`. -/
def ocaml_spotify_albumbrowse_album (b album : Ptr) : Except Failure WrapTrace :=
  match get_albumbrowse b with
  | Except.error e => Except.error e
  | Except.ok _ => Except.ok ⟨if album ≠ 0 then 1 else 0, album⟩

/-- `ocaml_spotify_albumbrowse_artist`: same shape. -/
def ocaml_spotify_albumbrowse_artist (b artist : Ptr) : Except Failure WrapTrace :=
  match get_albumbrowse b with
  | Except.error e => Except.error e
  | Except.ok _ => Except.ok ⟨if artist ≠ 0 then 1 else 0, artist⟩

/-- `ocaml_spotify_albumbrowse_track`: same shape. -/
def ocaml_spotify_albumbrowse_track (b track : Ptr) : Except Failure WrapTrace :=
  match get_albumbrowse b with
  | Except.error e => Except.error e
  | Except.ok _ => Except.ok ⟨if track ≠ 0 then 1 else 0, track⟩

/-! ## Audio delivery (`music_delivery` / `frame_size`) -/

/-- The `sp_audioformat` fields the trampoline copies into the managed
tuple.  `sample_type = 0` is `SP_SAMPLETYPE_INT16_NATIVE_ENDIAN` (the only
enumerator). -/
structure AudioFormat where
  sample_type : Nat
  sample_rate : Nat
  channels : Nat
deriving DecidableEq, Repr

/-- `frame_size(format)`: `channels * 2` for the INT16 native-endian
sample type, `-1` otherwise. -/
def frame_size (format : AudioFormat) : Int :=
  if format.sample_type = 0 then (format.channels : Int) * 2 else -1

/-- What one `music_delivery` trampoline invocation did and returned. -/
structure DeliveryTrace where
  callbackInvoked : Bool
  formatArg : AudioFormat
  bufferLen : Int
  framesArg : Nat
  returned : Int
deriving DecidableEq, Repr

/-- `music_delivery`: builds the audio-format tuple, an external bigarray
view of length `dim[0] = num_frames * frame_size(format)`, calls the
managed `music_delivery` method (`cb`, given the format, the buffer
length and the frame count), and returns `Int_val(result)` to the native
caller — with no branch on `num_frames`. -/
def music_delivery (cb : AudioFormat → Int → Nat → Int)
    (format : AudioFormat) (num_frames : Nat) : DeliveryTrace :=
  let dim : Int := (num_frames : Int) * frame_size format
  let result := cb format dim num_frames
  { callbackInvoked := true
    formatArg := format
    bufferLen := dim
    framesArg := num_frames
    returned := result }

/-! ## Claims -/

/-- Claim C1: the spec says every operation needing the underlying native
resource raises `NullHandle` on a null wrapped pointer before any native
call, including albumbrowse creation from an album handle.  The code
violates this at `ocaml_spotify_albumbrowse_create`: it reads the album
pointer with `Album_val`, not `get_album`, so with a live session (stored
pointer `1`) and a released album (stored pointer NULL) no `NullHandle` is
raised and `sp_albumbrowse_create` is called with a NULL album argument. -/
theorem C1_albumbrowse_create_skips_null_check :
    ocaml_spotify_albumbrowse_create 1 0 =
      Except.ok { nativeCalled := true, nativeAlbumArg := 0 } := rfl

/-- Claim C2: the spec requires the registration record passed to the
native library as userdata to stay valid until the completion callback has
been delivered.  The code violates this: `ocaml_spotify_search_release`
runs `search_finalize`, which `free`s the `struct search` record, so in
the release-then-fire ordering `search_complete` dereferences freed
memory. -/
theorem C2_release_then_fire_reads_freed :
    search_complete_reads_freed
      (search_release_lifecycle search_create_lifecycle) = true := rfl

/-- Claim C3: for every handle kind (plain, session, search, albumbrowse),
releasing twice equals releasing once: the second release of an
already-nulled handle performs no native decrement, no root removal and no
free, and a single release decrements the native count at most once. -/
theorem C3_release_idempotent (p : Ptr) :
    (ocaml_spotify_track_release (ocaml_spotify_track_release p).1 =
        ((ocaml_spotify_track_release p).1, noEffects) ∧
      (ocaml_spotify_track_release p).2.decrements ≤ 1) ∧
    (ocaml_spotify_session_release (ocaml_spotify_session_release p).1 =
        ((ocaml_spotify_session_release p).1, noEffects) ∧
      (ocaml_spotify_session_release p).2.decrements ≤ 1) ∧
    (ocaml_spotify_search_release (ocaml_spotify_search_release p).1 =
        ((ocaml_spotify_search_release p).1, noEffects) ∧
      (ocaml_spotify_search_release p).2.decrements ≤ 1) ∧
    (ocaml_spotify_albumbrowse_release (ocaml_spotify_albumbrowse_release p).1 =
        ((ocaml_spotify_albumbrowse_release p).1, noEffects) ∧
      (ocaml_spotify_albumbrowse_release p).2.decrements ≤ 1) := by
  rcases eq_or_ne p 0 with h | h <;>
    simp [ocaml_spotify_track_release, track_finalize,
      ocaml_spotify_session_release, session_finalize,
      ocaml_spotify_search_release, search_finalize,
      ocaml_spotify_albumbrowse_release, albumbrowse_finalize,
      noEffects, h]

/-- Claim C4: the spec intends a failed `sp_session_create` to raise
`NativeError("sp_session_create", code)` with the attempt's allocations
fully rolled back.  The code does raise that failure and frees the
userdata record, but it never removes the two generational global roots it
registered inside that record: at error code `3`, the final state has the
record freed while both roots are still registered (dangling roots), so
the rollback the claim asserts does not happen. -/
theorem C4_failed_create_leaves_roots_registered :
    ocaml_spotify_session_create 3 =
      (Except.error (Failure.nativeError "sp_session_create" 3),
       { recordAllocated := false
         sessionRootRegistered := true
         callbacksRootRegistered := true }) := rfl

/-- Claim C5: the spec requires the trampoline's register/release pairing
to be exception-safe on every exit path.  The code violates this:
`LEAVE_CALLBACK` is straight-line code after `caml_callback*`, so when the
managed callback raises, the raise unwinds past it — starting from an
unregistered thread, the raising path exits with the thread still
registered and the runtime system still held, not the entry state. -/
theorem C5_raise_skips_leave_callback :
    run_trampoline { registered := false, runtimeHeld := false } true =
        { registered := true, runtimeHeld := true } ∧
      run_trampoline { registered := false, runtimeHeld := false } true ≠
        { registered := false, runtimeHeld := false } := by
  decide

/-- Claim C6: at each blocking native call site returning an `sp_error`
(session creation, relogin, player load, player prefetch), a nonzero code
raises `NativeError` carrying the native operation's name and the code,
and a zero (success) code raises nothing; no result is ignored. -/
theorem C6_sync_error_translation (s t : Ptr) (e : Nat)
    (hs : s ≠ 0) (ht : t ≠ 0) :
    ocaml_spotify_session_relogin s e =
      (if e = 0 then Except.ok ()
       else Except.error (Failure.nativeError "sp_session_relogin" e)) ∧
    ocaml_spotify_session_player_load s t e =
      (if e = 0 then Except.ok ()
       else Except.error (Failure.nativeError "sp_session_player_load" e)) ∧
    ocaml_spotify_session_player_prefetch s t e =
      (if e = 0 then Except.ok ()
       else Except.error (Failure.nativeError "sp_session_player_prefetch" e)) ∧
    (ocaml_spotify_session_create e).1 =
      (if e = 0 then Except.ok ()
       else Except.error (Failure.nativeError "sp_session_create" e)) := by
  rcases eq_or_ne e 0 with he | he <;>
    simp [ocaml_spotify_session_relogin, ocaml_spotify_session_player_load,
      ocaml_spotify_session_player_prefetch, ocaml_spotify_session_create,
      get_session, get_track, fail, hs, ht, he]

/-- Witness for C6 at session pointer 1, track pointer 1, error code 7. -/
theorem C6_sync_error_translation_witness :
    ocaml_spotify_session_relogin 1 7 =
      (if (7 : Nat) = 0 then Except.ok ()
       else Except.error (Failure.nativeError "sp_session_relogin" 7)) :=
  (C6_sync_error_translation 1 1 7 (by decide) (by decide)).1

/-- Claim C7: every accessor returning a borrowed native pointer performs
exactly one explicit add-reference call before wrapping when the pointer
is non-null and none when it is null, so the new wrapper owns exactly one
increment or wraps the null sentinel, never both. -/
theorem C7_borrowed_accessors_addref (c p : Ptr) (hc : c ≠ 0) :
    ownershipOK ⟨if p ≠ 0 then 1 else 0, p⟩ ∧
    (ocaml_spotify_session_user c p = Except.ok ⟨if p ≠ 0 then 1 else 0, p⟩ ∧
     ocaml_spotify_session_friend c p = Except.ok ⟨if p ≠ 0 then 1 else 0, p⟩ ∧
     ocaml_spotify_session_playlistcontainer c p =
       Except.ok ⟨if p ≠ 0 then 1 else 0, p⟩ ∧
     ocaml_spotify_link_as_track c p = Except.ok ⟨if p ≠ 0 then 1 else 0, p⟩ ∧
     ocaml_spotify_link_as_album c p = Except.ok ⟨if p ≠ 0 then 1 else 0, p⟩ ∧
     ocaml_spotify_link_as_artist c p = Except.ok ⟨if p ≠ 0 then 1 else 0, p⟩ ∧
     ocaml_spotify_link_as_user c p = Except.ok ⟨if p ≠ 0 then 1 else 0, p⟩ ∧
     ocaml_spotify_track_artist c p = Except.ok ⟨if p ≠ 0 then 1 else 0, p⟩ ∧
     ocaml_spotify_track_album c p = Except.ok ⟨if p ≠ 0 then 1 else 0, p⟩ ∧
     ocaml_spotify_album_artist c p = Except.ok ⟨if p ≠ 0 then 1 else 0, p⟩ ∧
     ocaml_spotify_search_track c p = Except.ok ⟨if p ≠ 0 then 1 else 0, p⟩ ∧
     ocaml_spotify_search_album c p = Except.ok ⟨if p ≠ 0 then 1 else 0, p⟩ ∧
     ocaml_spotify_search_artist c p = Except.ok ⟨if p ≠ 0 then 1 else 0, p⟩ ∧
     ocaml_spotify_albumbrowse_album c p =
       Except.ok ⟨if p ≠ 0 then 1 else 0, p⟩ ∧
     ocaml_spotify_albumbrowse_artist c p =
       Except.ok ⟨if p ≠ 0 then 1 else 0, p⟩ ∧
     ocaml_spotify_albumbrowse_track c p =
       Except.ok ⟨if p ≠ 0 then 1 else 0, p⟩) := by
  constructor
  · rcases eq_or_ne p 0 with h | h
    · exact Or.inr ⟨h, by simp [h]⟩
    · exact Or.inl ⟨h, by simp [h]⟩
  · simp [ocaml_spotify_session_user, ocaml_spotify_session_friend,
      ocaml_spotify_session_playlistcontainer, ocaml_spotify_link_as_track,
      ocaml_spotify_link_as_album, ocaml_spotify_link_as_artist,
      ocaml_spotify_link_as_user, ocaml_spotify_track_artist,
      ocaml_spotify_track_album, ocaml_spotify_album_artist,
      ocaml_spotify_search_track, ocaml_spotify_search_album,
      ocaml_spotify_search_artist, ocaml_spotify_albumbrowse_album,
      ocaml_spotify_albumbrowse_artist, ocaml_spotify_albumbrowse_track,
      get_session, get_track, get_link, get_album, get_search,
      get_albumbrowse, hc]

/-- Witness for C7 at container pointer 1 and borrowed pointer 0 (the
null case: no add-reference performed, null sentinel wrapped). -/
theorem C7_borrowed_accessors_addref_witness :
    ocaml_spotify_session_user 1 0 =
      Except.ok ⟨if (0 : Nat) ≠ 0 then 1 else 0, 0⟩ :=
  (C7_borrowed_accessors_addref 1 0 (by decide)).2.1

/-- Claim C8 counterexample: the claim says two distinct wrappers never
compare equal, but `spotify_compare` casts the address difference to a
32-bit `int`: two distinct wrappers wrapping the same pointer `7`, at
data-area addresses `2^32` and `0`, compare equal (`0`). -/
theorem C8_distinct_wrappers_compare_equal :
    Wrapper.mk (2 ^ 32) 7 ≠ Wrapper.mk 0 7 ∧
      spotify_compare (Wrapper.mk (2 ^ 32) 7) (Wrapper.mk 0 7) = 0 := by
  constructor
  · decide
  · decide

/-- Claim C8, amended: comparison and hash are defined over the wrapper's
storage address only, never over the wrapped pointer; a wrapper compares
equal to itself; and two wrappers compare equal exactly when their
storage addresses are congruent modulo `2^32` (the address difference is
truncated to a 32-bit `int`), so distinct wrappers can compare equal only
when their addresses differ by a nonzero multiple of `2^32`. -/
theorem C8_compare_is_address_mod_2_32 (a b : Wrapper) :
    (spotify_compare a b = 0 ↔
      ((a.addr : Int) - (b.addr : Int)) % 2 ^ 32 = 0) ∧
    spotify_compare a a = 0 ∧
    (∀ p q : Ptr, spotify_compare ⟨a.addr, p⟩ ⟨b.addr, q⟩ =
      spotify_compare a b) ∧
    spotify_hash a = (a.addr : Int) := by
  refine ⟨?_, ?_, fun p q => rfl, rfl⟩
  · simp only [spotify_compare, toInt32]
    omega
  · simp only [spotify_compare, toInt32, sub_self]
    norm_num

/-- Claim C9: the audio-delivery trampoline invoked with zero frames still
builds the format and a zero-length buffer, invokes the managed callback,
and returns exactly the callback's result to the native caller; and for
every frame count the callback is invoked and its result forwarded — no
special case on the frame count. -/
theorem C9_zero_frames_forwarded (cb : AudioFormat → Int → Nat → Int)
    (format : AudioFormat) :
    music_delivery cb format 0 =
      { callbackInvoked := true
        formatArg := format
        bufferLen := 0
        framesArg := 0
        returned := cb format 0 0 } ∧
    (∀ n : Nat, (music_delivery cb format n).callbackInvoked = true ∧
      (music_delivery cb format n).returned =
        cb format ((n : Int) * frame_size format) n) := by
  constructor
  · simp [music_delivery]
  · intro n
    exact ⟨rfl, rfl⟩

/-- Claim C10: `ocaml_spotify_is_null` compares the data-area address of
the custom value (never NULL for a live custom block) against NULL, not
the wrapped native pointer stored there, so it returns `false` for every
handle — including a released one whose stored pointer is NULL. -/
theorem C10_is_null_always_false (x : Wrapper) (h : x.addr ≠ 0) :
    ocaml_spotify_is_null x = false := by
  simp [ocaml_spotify_is_null, h]

/-- Witness for C10: a released handle (stored pointer NULL) at data-area
address 8 is still reported non-null. -/
theorem C10_is_null_always_false_witness :
    ocaml_spotify_is_null (Wrapper.mk 8 0) = false :=
  C10_is_null_always_false (Wrapper.mk 8 0) (by decide)

end Spotify
